import Mathlib

/-!
Shallow embedding of the row-level authorization engine of the asset
management backend (src/assets.py, src/views.py), together with proofs
about the access policies.

Modelling conventions:
* Countries and ACTEDAreas are identified by a `Nat` key; a Django foreign
  key that may be NULL becomes `Option Nat`.  The `code_iso` / `code`
  lookups used by `user_can_create_access` are modelled as the same key
  (codes are unique identifiers of the referenced rows and are never NULL
  on a persisted row).
* The multi-hop geography derivation (asset → current premises → place →
  acted area) is collapsed into a derived `acted_area : Option Nat` field
  on the entity record, `none` when any hop is NULL.
* A Django `QuerySet` is modelled by its membership predicate: a function
  returning `Bool` for a candidate row, with the grant table passed
  explicitly.  `Q(pk__isnull=False)` is `true` on every persisted row and
  `Q(pk__isnull=True)` is `false`.
* `distinct()` does not change membership and is dropped.
-/

namespace AssetPolicy

/-- Global named permissions checked via `user.has_perm` in the policies
under verification.  The Django permission strings are modelled as an
enumeration. -/
inductive Perm
  | view_asset
  | view_asset_all
  | change_asset
  | change_asset_all
  | change_asset_purchase_number
  | change_asset_all_transitions
  | delete_asset
  | delete_asset_all
  | add_asset
  | add_asset_all
  | view_assetuseraccess
  | view_assetuseraccess_all
  | add_assetuseraccess
  | add_assetuseraccess_all
  | delete_assetuseraccess
  | delete_assetuseraccess_all
  | view_inventory
  | view_inventory_all
  | change_inventory
  | change_inventory_all
  | change_inventory_all_transitions
  | delete_inventory
  | delete_inventory_all
  | add_inventory
  | add_inventory_all
  | view_assetallocationprojectcontract
  | view_assetallocationprojectcontract_all
  | change_assetallocationprojectcontract
  | change_assetallocationprojectcontract_all
  | delete_assetallocationprojectcontract
  | delete_assetallocationprojectcontract_all
  | view_disposalplan
  | view_disposalplan_all
  | change_disposalplan
  | change_disposalplan_all
  | delete_disposalplan
  | delete_disposalplan_all
  | change_disposal_plan_all_transitions
  deriving DecidableEq

/-- A user: identity plus the set of global named permissions. -/
structure User where
  id : Nat
  perms : List Perm
  deriving DecidableEq

/-- `user.has_perm(p)`. -/
def User.has_perm (u : User) (p : Perm) : Bool :=
  decide (p ∈ u.perms)

/-- `AssetUserAccess.Mode` (the role encoded on a grant). -/
inductive Mode
  | OFFICER
  | MANAGER
  | CONTROLLER
  | INVENTORY_VALIDATOR
  | DISPOSAL_VALIDATOR
  deriving DecidableEq

/-- All members of `AssetUserAccess.Mode`, in declaration order. -/
def Mode.all : List Mode :=
  [Mode.OFFICER, Mode.MANAGER, Mode.CONTROLLER,
   Mode.INVENTORY_VALIDATOR, Mode.DISPOSAL_VALIDATOR]

/-- An `AssetUserAccess` grant row: `{user, country?, acted_area?, mode}`. -/
structure AssetUserAccess where
  id : Nat
  userId : Nat
  country : Option Nat
  acted_area : Option Nat
  mode : Mode
  deriving DecidableEq

/-- `AccessPolicyAction` from `logistics.access_policies.common`. -/
inductive AccessPolicyAction
  | READ
  | EDIT
  | DELETE
  | PLAY_TRANSITION
  deriving DecidableEq

/-- Asset lifecycle states referenced by the policy code (the full state
machine lives in the external workflow engine; the scoping code only
distinguishes `IN_STOCK`). -/
inductive AssetState
  | IN_STOCK
  | IN_USE
  deriving DecidableEq

/-- An `Asset` row, with derived geography. -/
structure Asset where
  id : Nat
  state : AssetState
  country_mission : Option Nat
  acted_area : Option Nat
  deriving DecidableEq

/-- The area term of a per-grant clause as built by the entity policies
(Asset, allocations, Inventory, DisposalPlan, AssetMaintenance):
`Q(<area>=grant.acted_area) | Q(<area>__isnull=True)` when the grant has
an area, no restriction otherwise. -/
def areaMatchTerm (grantArea rowArea : Option Nat) : Bool :=
  match grantArea with
  | none => true
  | some a => decide (rowArea = some a) || decide (rowArea = none)

/-- The country term of a per-grant clause as built by the entity
policies: `Q(<country>=grant.country) | Q(<country>__isnull=True)` when
the grant has a country, else the always-true `Q(pk__isnull=False)`
placeholder. -/
def countryMatchTerm (grantCountry rowCountry : Option Nat) : Bool :=
  match grantCountry with
  | none => true
  | some c => decide (rowCountry = some c) || decide (rowCountry = none)

/-- Per-grant clause of `AssetAccessPolicy.get_qs_for_user` (the body of
the loop over the user's `AssetUserAccess` rows). -/
def assetAccessClause (action : AccessPolicyAction) (g : AssetUserAccess) (a : Asset) : Bool :=
  (if action = AccessPolicyAction.DELETE then
    (if g.mode = Mode.MANAGER ∨ g.mode = Mode.CONTROLLER then
      decide (a.state = AssetState.IN_STOCK)
    else
      false)
  else
    true)
  && (if (g.mode = Mode.INVENTORY_VALIDATOR ∨ g.mode = Mode.DISPOSAL_VALIDATOR)
        ∧ (action = AccessPolicyAction.EDIT ∨ action = AccessPolicyAction.DELETE) then
      false
    else
      true)
  && areaMatchTerm g.acted_area a.acted_area
  && countryMatchTerm g.country a.country_mission

/-- The coarse permission gate at the top of
`AssetAccessPolicy.get_qs_for_user`. -/
def assetBasePermOk (u : User) (action : AccessPolicyAction) : Bool :=
  match action with
  | AccessPolicyAction.READ =>
      u.has_perm Perm.view_asset || u.has_perm Perm.view_asset_all
  | AccessPolicyAction.EDIT =>
      u.has_perm Perm.change_asset || u.has_perm Perm.change_asset_all
        || u.has_perm Perm.change_asset_purchase_number
  | AccessPolicyAction.DELETE =>
      u.has_perm Perm.delete_asset || u.has_perm Perm.delete_asset_all
  | AccessPolicyAction.PLAY_TRANSITION => true

/-- Membership of asset `a` in the queryset returned by
`AssetAccessPolicy.get_qs_for_user(user, action)`, given the full
`AssetUserAccess` table `accesses`. -/
def assetQsMem (user : Option User) (accesses : List AssetUserAccess)
    (action : AccessPolicyAction) (a : Asset) : Bool :=
  match user with
  | none => false
  | some u =>
    if !assetBasePermOk u action then false
    else if decide (action = AccessPolicyAction.READ) && u.has_perm Perm.view_asset_all then true
    else if decide (action = AccessPolicyAction.EDIT) && u.has_perm Perm.change_asset_all then true
    else if decide (action = AccessPolicyAction.DELETE) && u.has_perm Perm.delete_asset_all then true
    else if decide (action = AccessPolicyAction.EDIT) && u.has_perm Perm.change_asset_purchase_number then true
    else
      (accesses.filter (fun g => decide (g.userId = u.id))).any
        (fun g => assetAccessClause action g a)

/-- `AssetAccessPolicy.set_readonly_fields`: serializer fields are
modelled as a list of `(name, read_only)` pairs. -/
def set_readonly_fields (asset : Option Asset) (fields : List (String × Bool))
    (user : Option User) : List (String × Bool) :=
  match asset with
  | none => fields
  | some _ =>
    match user with
    | none => fields
    | some u =>
      if u.has_perm Perm.change_asset || u.has_perm Perm.change_asset_all
          || !(u.has_perm Perm.change_asset_purchase_number) then
        fields
      else
        fields.map (fun f => if f.1 = "purchase_number" then f else (f.1, true))

/-- The `mode__in` list built for one of the viewer's grants in
`AssetUserAccessAccessPolicy.get_qs_for_user`: the later
officer-on-READ assignment overwrites the earlier one. -/
def auaVisibleModes (action : AccessPolicyAction) (g : AssetUserAccess) : List Mode :=
  if decide (action = AccessPolicyAction.READ) && decide (g.mode = Mode.OFFICER) then
    [Mode.OFFICER, Mode.INVENTORY_VALIDATOR]
  else if decide (g.mode = Mode.CONTROLLER) || decide (g.mode = Mode.MANAGER) then
    Mode.all.filter (fun m => decide (m ≠ Mode.CONTROLLER))
  else
    [g.mode]

/-- The area term of the self-scoping of `AssetUserAccess` rows:
`clauses['acted_area'] = user_access.acted_area` is a plain equality,
with no `isnull` escape. -/
def auaAreaTerm (grantArea rowArea : Option Nat) : Bool :=
  match grantArea with
  | none => true
  | some a => decide (rowArea = some a)

/-- The country term of the self-scoping of `AssetUserAccess` rows:
plain equality when the viewer grant has a country, else the
`pk__isnull=False` placeholder. -/
def auaCountryTerm (grantCountry rowCountry : Option Nat) : Bool :=
  match grantCountry with
  | none => true
  | some c => decide (rowCountry = some c)

/-- Per-grant clause of `AssetUserAccessAccessPolicy.get_qs_for_user`. -/
def auaClause (action : AccessPolicyAction) (g : AssetUserAccess)
    (row : AssetUserAccess) : Bool :=
  auaAreaTerm g.acted_area row.acted_area
  && auaCountryTerm g.country row.country
  && decide (row.mode ∈ auaVisibleModes action g)

/-- Membership of grant row `row` in the queryset returned by
`AssetUserAccessAccessPolicy.get_qs_for_user(user, action)`. -/
def auaQsMem (user : Option User) (accesses : List AssetUserAccess)
    (action : AccessPolicyAction) (row : AssetUserAccess) : Bool :=
  match user with
  | none => false
  | some u =>
    if decide (action = AccessPolicyAction.READ) && u.has_perm Perm.view_assetuseraccess_all then true
    else if decide (action = AccessPolicyAction.DELETE) && u.has_perm Perm.delete_assetuseraccess_all then true
    else
      (accesses.filter (fun g => decide (g.userId = u.id))).any
        (fun g => auaClause action g row)

/-- `AssetUserAccessAccessPolicy.user_can_create_access`. -/
def user_can_create_access (user : Option User) (accesses : List AssetUserAccess)
    (country_code : Option Nat) (acted_area_code : Option Nat) (mode : Mode) : Bool :=
  match user with
  | none => false
  | some u =>
    if u.has_perm Perm.add_assetuseraccess_all then true
    else if mode = Mode.CONTROLLER then false
    else
      accesses.any (fun g =>
        decide (g.userId = u.id)
        && (decide (g.acted_area = acted_area_code) || decide (g.acted_area = none))
        && (decide (g.country = country_code) || decide (g.country = none))
        && (decide (g.mode = mode)
            || decide (g.mode = Mode.CONTROLLER) || decide (g.mode = Mode.MANAGER)))

/-- Inventory lifecycle states referenced by the source. -/
inductive InventoryState
  | ON_GOING
  | PENDING_VALIDATION
  | VALIDATED
  deriving DecidableEq

/-- An `Inventory` row; `country` is `premises.mission_country` and
`acted_area` is `premises.place.acted_area`. -/
structure Inventory where
  id : Nat
  state : InventoryState
  country : Option Nat
  acted_area : Option Nat
  deriving DecidableEq

/-- The coarse permission gate at the top of
`InventoryAccessPolicy.get_qs_for_user`. -/
def inventoryBasePermOk (u : User) (action : AccessPolicyAction) : Bool :=
  match action with
  | AccessPolicyAction.READ =>
      u.has_perm Perm.view_inventory || u.has_perm Perm.view_inventory_all
  | AccessPolicyAction.EDIT =>
      u.has_perm Perm.change_inventory || u.has_perm Perm.change_inventory_all
  | AccessPolicyAction.DELETE =>
      u.has_perm Perm.delete_inventory || u.has_perm Perm.delete_inventory_all
  | AccessPolicyAction.PLAY_TRANSITION => true

/-- Per-grant clause of `InventoryAccessPolicy.get_qs_for_user`. -/
def inventoryAccessClause (action : AccessPolicyAction) (g : AssetUserAccess)
    (inv : Inventory) : Bool :=
  (if decide (g.mode = Mode.OFFICER)
      && (decide (action = AccessPolicyAction.EDIT) || decide (action = AccessPolicyAction.DELETE)) then
    decide (inv.state = InventoryState.ON_GOING)
  else
    true)
  && areaMatchTerm g.acted_area inv.acted_area
  && countryMatchTerm g.country inv.country

/-- Membership of `inv` in the queryset returned by
`InventoryAccessPolicy.get_qs_for_user(user, action)`.  The
`~Q(state=VALIDATED)` filter for EDIT/DELETE is applied before the
blanket-permission early returns. -/
def inventoryQsMem (user : Option User) (accesses : List AssetUserAccess)
    (action : AccessPolicyAction) (inv : Inventory) : Bool :=
  match user with
  | none => false
  | some u =>
    if !inventoryBasePermOk u action then false
    else if (decide (action = AccessPolicyAction.EDIT) || decide (action = AccessPolicyAction.DELETE))
        && decide (inv.state = InventoryState.VALIDATED) then false
    else if decide (action = AccessPolicyAction.READ) && u.has_perm Perm.view_inventory_all then true
    else if decide (action = AccessPolicyAction.EDIT) && u.has_perm Perm.change_inventory_all then true
    else if decide (action = AccessPolicyAction.DELETE) && u.has_perm Perm.delete_inventory_all then true
    else
      (accesses.filter (fun g => decide (g.userId = u.id))).any
        (fun g => inventoryAccessClause action g inv)

/-- An `AssetAllocationProjectContract` row; geography is derived from
the referenced asset. -/
structure AssetAllocationProjectContract where
  id : Nat
  created_by : Nat
  country : Option Nat
  acted_area : Option Nat
  deriving DecidableEq

/-- The coarse permission gate at the top of
`AssetAllocationProjectContractAccessPolicy.get_qs_for_user`. -/
def aapcBasePermOk (u : User) (action : AccessPolicyAction) : Bool :=
  match action with
  | AccessPolicyAction.READ =>
      u.has_perm Perm.view_assetallocationprojectcontract
        || u.has_perm Perm.view_assetallocationprojectcontract_all
  | AccessPolicyAction.EDIT =>
      u.has_perm Perm.change_assetallocationprojectcontract
        || u.has_perm Perm.change_assetallocationprojectcontract_all
  | AccessPolicyAction.DELETE =>
      u.has_perm Perm.delete_assetallocationprojectcontract
        || u.has_perm Perm.delete_assetallocationprojectcontract_all
  | AccessPolicyAction.PLAY_TRANSITION => true

/-- Per-grant clause of
`AssetAllocationProjectContractAccessPolicy.get_qs_for_user`; `userId`
is the requesting user, for the officers-own-records term. -/
def aapcAccessClause (userId : Nat) (action : AccessPolicyAction)
    (g : AssetUserAccess) (r : AssetAllocationProjectContract) : Bool :=
  (if decide (g.mode = Mode.OFFICER)
      && (decide (action = AccessPolicyAction.EDIT) || decide (action = AccessPolicyAction.DELETE)) then
    decide (r.created_by = userId)
  else
    true)
  && areaMatchTerm g.acted_area r.acted_area
  && countryMatchTerm g.country r.country

/-- Membership of `r` in the queryset returned by
`AssetAllocationProjectContractAccessPolicy.get_qs_for_user`. -/
def aapcQsMem (user : Option User) (accesses : List AssetUserAccess)
    (action : AccessPolicyAction) (r : AssetAllocationProjectContract) : Bool :=
  match user with
  | none => false
  | some u =>
    if !aapcBasePermOk u action then false
    else if decide (action = AccessPolicyAction.READ)
        && u.has_perm Perm.view_assetallocationprojectcontract_all then true
    else if decide (action = AccessPolicyAction.EDIT)
        && u.has_perm Perm.change_assetallocationprojectcontract_all then true
    else if decide (action = AccessPolicyAction.DELETE)
        && u.has_perm Perm.delete_assetallocationprojectcontract_all then true
    else
      (accesses.filter (fun g => decide (g.userId = u.id))).any
        (fun g => aapcAccessClause u.id action g r)

/-- `DisposalPlan` lifecycle states. -/
inductive DisposalPlanState
  | DRAFT
  | UNDER_MANAGER_VALIDATION
  | UNDER_FINANCE_VALIDATION
  | DONE
  deriving DecidableEq

/-- Names of `DisposalPlan` workflow transitions; the policy code only
distinguishes `SUBMIT_TO_FINANCE` and `TO_CORRECT`, the rest of the
workflow's edges are represented by the remaining constructors. -/
inductive DisposalPlanTransitionName
  | SUBMIT_TO_FINANCE
  | TO_CORRECT
  | VALIDATE
  | REJECT
  deriving DecidableEq

/-- A `DisposalPlan` row. -/
structure DisposalPlan where
  id : Nat
  state : DisposalPlanState
  country_mission : Option Nat
  acted_area : Option Nat
  deriving DecidableEq

/-- A workflow `Transition` as consulted by
`DisposalPlanAccessPolicy.scope_workflow_transition_check`: its name and
the name of its source state. -/
structure Transition where
  name : DisposalPlanTransitionName
  source_state : DisposalPlanState
  deriving DecidableEq

/-- `AssetAccessPolicy._get_accesses_for_country_and_area`: the user's
grants whose geography covers the given country/area (NULL grant scope
matches any value). -/
def get_accesses_for_country_and_area (userId : Nat) (accesses : List AssetUserAccess)
    (country : Option Nat) (acted_area : Option Nat) : List AssetUserAccess :=
  accesses.filter (fun g =>
    decide (g.userId = userId)
    && (decide (g.acted_area = none) || decide (g.acted_area = acted_area))
    && (decide (g.country = none) || decide (g.country = country)))

/-- The grant loop of
`DisposalPlanAccessPolicy.scope_workflow_transition_check`; the source
iterates the matching grants in order and `return`s from inside the loop
body, so the first grant taking a `return` branch decides. -/
def dpCheckAccesses (t : Transition) : List AssetUserAccess → Bool
  | [] => false
  | g :: rest =>
    if t.source_state = DisposalPlanState.UNDER_FINANCE_VALIDATION then
      decide (g.mode = Mode.DISPOSAL_VALIDATOR)
    else if (t.name = DisposalPlanTransitionName.SUBMIT_TO_FINANCE
          ∨ t.name = DisposalPlanTransitionName.TO_CORRECT)
        ∧ g.mode = Mode.OFFICER then
      false
    else if g.mode = Mode.OFFICER ∨ g.mode = Mode.MANAGER ∨ g.mode = Mode.CONTROLLER then
      true
    else
      dpCheckAccesses t rest

/-- `DisposalPlanAccessPolicy.scope_workflow_transition_check`. -/
def dpScopeWorkflowTransitionCheck (user : Option User)
    (accesses : List AssetUserAccess) (dp : DisposalPlan) (t : Transition) : Bool :=
  match user with
  | none => false
  | some u =>
    if u.has_perm Perm.change_disposal_plan_all_transitions then true
    else if u.has_perm Perm.change_asset_all
        && !(decide (t.source_state = DisposalPlanState.UNDER_FINANCE_VALIDATION)) then true
    else
      dpCheckAccesses t
        (get_accesses_for_country_and_area u.id accesses dp.country_mission dp.acted_area)

/-- A `ProcurementUserAccess` grant row: structurally parallel to
`AssetUserAccess` but with no area axis. -/
structure ProcurementUserAccess where
  id : Nat
  userId : Nat
  country : Option Nat
  mode : Mode
  deriving DecidableEq

/-- The natural-key match used by the procurement grant upsert:
`get_or_create(user=..., country=...)` looks a row up by (user, country). -/
def procKey (userId : Nat) (country : Option Nat) (a : ProcurementUserAccess) : Bool :=
  decide (a.userId = userId) && decide (a.country = country)

/-- One iteration body of `ProcurementAccessPolicyViewSet.create_many`:
`get_or_create(user=..., country=..., defaults={'mode': mode})` followed
by `access.mode = mode; access.save()`.  `nextId` is the primary key a
newly inserted row would receive. -/
def procUpsert (db : List ProcurementUserAccess) (nextId userId : Nat)
    (country : Option Nat) (mode : Mode) : List ProcurementUserAccess :=
  match db.find? (procKey userId country) with
  | some a => db.map (fun b => if b.id = a.id then { b with mode := mode } else b)
  | none => db ++ [⟨nextId, userId, country, mode⟩]

/-- `ProcurementAccessPolicyViewSet.create_many`: loops over the given
country codes (`[None]` when absent), authorizing each step with the
procurement policy's `user_can_create_access` (a collaborator outside
the verified sources, abstracted as `canCreate`); a denied step raises
`PermissionDenied`, rolling back the enclosing transaction (`none`). -/
def procCreateMany (canCreate : Option Nat → Mode → Bool)
    (db : List ProcurementUserAccess) (nextId userId : Nat)
    (countryCodes : List (Option Nat)) (mode : Mode) : Option (List ProcurementUserAccess) :=
  match countryCodes with
  | [] => some db
  | c :: rest =>
    if canCreate c mode then
      procCreateMany canCreate (procUpsert db nextId userId c mode) (nextId + 1) userId rest mode
    else
      none

/-- One iteration body of `AssetUserAccessViewSet.create_many`: a plain
`AssetUserAccess.objects.create(...)` appending a fresh row. -/
def auaInsert (db : List AssetUserAccess) (newId targetUser : Nat)
    (country area : Option Nat) (mode : Mode) : List AssetUserAccess :=
  db ++ [⟨newId, targetUser, country, area, mode⟩]

/-- `AssetUserAccessViewSet.create_many`: loops over the requested area
codes, re-checking `user_can_create_access` for the acting user against
the evolving grant table; a denied step raises `PermissionDenied`,
rolling back the enclosing transaction (`none`). -/
def auaCreateMany (actor : Option User) (db : List AssetUserAccess)
    (nextId targetUser : Nat) (country : Option Nat)
    (areaCodes : List (Option Nat)) (mode : Mode) : Option (List AssetUserAccess) :=
  match areaCodes with
  | [] => some db
  | code :: rest =>
    if user_can_create_access actor db country code mode then
      auaCreateMany actor (auaInsert db nextId targetUser country code mode)
        (nextId + 1) targetUser country rest mode
    else
      none

/-- Entry point of `AssetUserAccessViewSet.create_many`: an empty
`acted_areas` payload is replaced by `[None]`. -/
def auaCreateManyEndpoint (actor : Option User) (db : List AssetUserAccess)
    (nextId targetUser : Nat) (country : Option Nat)
    (areaCodes : List (Option Nat)) (mode : Mode) : Option (List AssetUserAccess) :=
  auaCreateMany actor db nextId targetUser country
    (if areaCodes.isEmpty then [none] else areaCodes) mode

/-! ## Theorems about the claims -/

/-- C1, counterexample: a user holding only `change_asset_purchase_number`
(no blanket `-all` permission for EDIT) and zero grants nevertheless has a
non-empty EDIT scope — the claimed fail-closed property does not hold for
every action. -/
theorem c1_counterexample :
    assetQsMem (some ⟨0, [Perm.change_asset_purchase_number]⟩) []
      AccessPolicyAction.EDIT ⟨1, AssetState.IN_USE, some 1, none⟩ = true
    ∧ User.has_perm ⟨0, [Perm.change_asset_purchase_number]⟩ Perm.change_asset_all = false
    ∧ ([] : List AssetUserAccess).filter (fun g => decide (g.userId = 0)) = [] := by
  decide

/-- C1, amended: for READ/EDIT/DELETE the Asset scope is empty whenever the
user is anonymous, and whenever an authenticated user lacks the action's
blanket `-all` permission — and, for EDIT, also lacks
`change_asset_purchase_number` — while holding zero grants; the empty
disjunction of grant clauses never matches everything. -/
theorem c1_fail_closed_scoping (u : User) (accesses : List AssetUserAccess)
    (act : AccessPolicyAction) (a : Asset)
    (hact : act = AccessPolicyAction.READ ∨ act = AccessPolicyAction.EDIT
      ∨ act = AccessPolicyAction.DELETE)
    (hread : act = AccessPolicyAction.READ → u.has_perm Perm.view_asset_all = false)
    (hedit : act = AccessPolicyAction.EDIT → u.has_perm Perm.change_asset_all = false
      ∧ u.has_perm Perm.change_asset_purchase_number = false)
    (hdel : act = AccessPolicyAction.DELETE → u.has_perm Perm.delete_asset_all = false)
    (hnog : accesses.filter (fun g => decide (g.userId = u.id)) = []) :
    assetQsMem none accesses act a = false
    ∧ assetQsMem (some u) accesses act a = false := by
  refine ⟨rfl, ?_⟩
  rcases hact with h | h | h <;> subst h
  · simp [assetQsMem, hread rfl, hnog]
  · simp [assetQsMem, (hedit rfl).1, (hedit rfl).2, hnog]
  · simp [assetQsMem, hdel rfl, hnog]

/-- Closed instance of `c1_fail_closed_scoping`. -/
theorem c1_fail_closed_scoping_witness :
    assetQsMem none [] AccessPolicyAction.READ ⟨1, AssetState.IN_USE, some 1, none⟩ = false
    ∧ assetQsMem (some ⟨0, [Perm.view_asset]⟩) [] AccessPolicyAction.READ
        ⟨1, AssetState.IN_USE, some 1, none⟩ = false :=
  c1_fail_closed_scoping ⟨0, [Perm.view_asset]⟩ [] AccessPolicyAction.READ
    ⟨1, AssetState.IN_USE, some 1, none⟩ (Or.inl rfl)
    (by decide) (by decide) (by decide) rfl

/-- C2: grant creation with requested mode CONTROLLER is denied to every
actor lacking `add_assetuseraccess_all` (anonymous actors are always
denied); for any other requested mode the check succeeds exactly when the
actor holds the blanket add permission or an existing grant covering the
target country/area (NULL grant scope matching any value) whose mode is
the requested mode, CONTROLLER, or MANAGER. -/
theorem c2_grant_creation_authorization (u : User) (accesses : List AssetUserAccess)
    (country area : Option Nat) (mode : Mode) :
    user_can_create_access none accesses country area mode = false
    ∧ (mode = Mode.CONTROLLER → u.has_perm Perm.add_assetuseraccess_all = false →
        user_can_create_access (some u) accesses country area mode = false)
    ∧ (mode ≠ Mode.CONTROLLER →
        (user_can_create_access (some u) accesses country area mode = true ↔
          u.has_perm Perm.add_assetuseraccess_all = true
          ∨ ∃ g ∈ accesses, g.userId = u.id
              ∧ (g.acted_area = area ∨ g.acted_area = none)
              ∧ (g.country = country ∨ g.country = none)
              ∧ (g.mode = mode ∨ g.mode = Mode.CONTROLLER ∨ g.mode = Mode.MANAGER))) := by
  refine ⟨rfl, ?_, ?_⟩
  · intro hm hperm
    simp [user_can_create_access, hperm, hm]
  · intro hm
    unfold user_can_create_access
    cases hperm : u.has_perm Perm.add_assetuseraccess_all
    · simp only [hperm, Bool.false_eq_true, if_false, if_neg hm, List.any_eq_true,
        Bool.and_eq_true, Bool.or_eq_true, decide_eq_true_eq, false_or]
      constructor
      · rintro ⟨g, hg, ⟨⟨hid, harea⟩, hcountry⟩, hmode⟩
        exact ⟨g, hg, hid, harea, hcountry, by tauto⟩
      · rintro ⟨g, hg, hid, harea, hcountry, hmode⟩
        exact ⟨g, hg, ⟨⟨hid, harea⟩, hcountry⟩, by tauto⟩
    · simp [hperm]

/-- Closed instance of `c2_grant_creation_authorization`. -/
theorem c2_grant_creation_authorization_witness :
    user_can_create_access (some ⟨0, []⟩) [⟨1, 0, some 1, none, Mode.OFFICER⟩]
      (some 1) (some 2) Mode.CONTROLLER = false
    ∧ user_can_create_access (some ⟨0, []⟩) [⟨1, 0, some 1, none, Mode.OFFICER⟩]
        (some 1) (some 2) Mode.OFFICER = true := by
  constructor
  · exact (c2_grant_creation_authorization ⟨0, []⟩ [⟨1, 0, some 1, none, Mode.OFFICER⟩]
      (some 1) (some 2) Mode.CONTROLLER).2.1 rfl (by decide)
  · exact ((c2_grant_creation_authorization ⟨0, []⟩ [⟨1, 0, some 1, none, Mode.OFFICER⟩]
      (some 1) (some 2) Mode.OFFICER).2.2 (by decide)).mpr
      (Or.inr ⟨⟨1, 0, some 1, none, Mode.OFFICER⟩, by decide, by decide⟩)

/-- C3, counterexample: with an area-scoped MANAGER viewer grant, a grant
row with NULL area is excluded by the `AssetUserAccess` self-scoping even
though every non-area part of the clause matches and the uniform area term
of the other entity policies would keep it visible — so the area-term rule
does not hold uniformly across all scoped entities. -/
theorem c3_counterexample :
    auaQsMem (some ⟨9, []⟩)
      [⟨1, 9, none, some 1, Mode.MANAGER⟩, ⟨2, 3, none, none, Mode.OFFICER⟩]
      AccessPolicyAction.READ ⟨2, 3, none, none, Mode.OFFICER⟩ = false
    ∧ auaClause AccessPolicyAction.READ ⟨1, 9, none, some 1, Mode.MANAGER⟩
        ⟨2, 3, none, none, Mode.OFFICER⟩ = false
    ∧ auaAreaTerm (some 1) none = false
    ∧ areaMatchTerm (some 1) none = true
    ∧ auaCountryTerm none none = true
    ∧ decide (Mode.OFFICER ∈ auaVisibleModes AccessPolicyAction.READ
        ⟨1, 9, none, some 1, Mode.MANAGER⟩) = true := by
  decide

/-- C3, amended: for the entity policies (Asset, Inventory, allocations)
the per-grant area term matches a row exactly when the row's area equals
the grant's `scope_area` or the row's area is NULL, and an unset
`scope_area` imposes no restriction; the `AssetUserAccess` self-scoping
instead uses a strict equality area term, so a NULL-area grant row is not
matched by an area-scoped viewer grant. -/
theorem c3_area_term_uniformity (x : Nat) (ra : Option Nat) (g : AssetUserAccess)
    (act : AccessPolicyAction) (a : Asset) (inv : Inventory)
    (r : AssetAllocationProjectContract) (row : AssetUserAccess) (uid : Nat) :
    areaMatchTerm none ra = true
    ∧ (areaMatchTerm (some x) ra = true ↔ (ra = some x ∨ ra = none))
    ∧ (g.acted_area = some x → assetAccessClause act g a = true →
        (a.acted_area = some x ∨ a.acted_area = none))
    ∧ (g.acted_area = some x → inventoryAccessClause act g inv = true →
        (inv.acted_area = some x ∨ inv.acted_area = none))
    ∧ (g.acted_area = some x → aapcAccessClause uid act g r = true →
        (r.acted_area = some x ∨ r.acted_area = none))
    ∧ auaAreaTerm none ra = true
    ∧ (auaAreaTerm (some x) ra = true ↔ ra = some x)
    ∧ (g.acted_area = some x → auaClause act g row = true → row.acted_area = some x) := by
  refine ⟨rfl, ?_, ?_, ?_, ?_, rfl, ?_, ?_⟩
  · simp [areaMatchTerm]
  · intro hga hcl
    simp only [assetAccessClause, Bool.and_eq_true] at hcl
    have h3 := hcl.1.2
    rw [hga] at h3
    simpa [areaMatchTerm] using h3
  · intro hga hcl
    simp only [inventoryAccessClause, Bool.and_eq_true] at hcl
    have h3 := hcl.1.2
    rw [hga] at h3
    simpa [areaMatchTerm] using h3
  · intro hga hcl
    simp only [aapcAccessClause, Bool.and_eq_true] at hcl
    have h3 := hcl.1.2
    rw [hga] at h3
    simpa [areaMatchTerm] using h3
  · simp [auaAreaTerm]
  · intro hga hcl
    simp only [auaClause, Bool.and_eq_true] at hcl
    have h3 := hcl.1.1
    rw [hga] at h3
    simpa [auaAreaTerm] using h3

/-- Closed instance of `c3_area_term_uniformity`. -/
theorem c3_area_term_uniformity_witness :
    areaMatchTerm (some 5) none = true ∧ auaAreaTerm (some 5) (some 5) = true :=
  ⟨(c3_area_term_uniformity 5 none ⟨1, 0, none, none, Mode.OFFICER⟩
      AccessPolicyAction.READ ⟨1, AssetState.IN_USE, none, none⟩
      ⟨1, InventoryState.ON_GOING, none, none⟩ ⟨1, 0, none, none⟩
      ⟨2, 0, none, none, Mode.OFFICER⟩ 0).2.1.mpr (Or.inr rfl),
   (c3_area_term_uniformity 5 (some 5) ⟨1, 0, none, none, Mode.OFFICER⟩
      AccessPolicyAction.READ ⟨1, AssetState.IN_USE, none, none⟩
      ⟨1, InventoryState.ON_GOING, none, none⟩ ⟨1, 0, none, none⟩
      ⟨2, 0, none, none, Mode.OFFICER⟩ 0).2.2.2.2.2.2.1.mpr rfl⟩

/-- C4, counterexample: the `AssetUserAccess` create-many endpoint inserts
unconditionally, so invoking it twice with the identical natural key
(user 5, country 1, area 2) and differing modes accumulates two grant
rows for that key instead of upserting to one. -/
theorem c4_counterexample :
    ((auaCreateManyEndpoint (some ⟨0, [Perm.add_assetuseraccess_all]⟩) []
        1 5 (some 1) [some 2] Mode.OFFICER).bind
      (fun db1 => auaCreateManyEndpoint (some ⟨0, [Perm.add_assetuseraccess_all]⟩) db1
        2 5 (some 1) [some 2] Mode.MANAGER)).map
      (fun db2 => (db2.filter (fun a =>
        decide (a.userId = 5) && decide (a.country = some 1)
          && decide (a.acted_area = some 2))).length)
      = some 2 := by
  decide

/-- C4, amended: the procurement create-many endpoint upserts by natural
key (user, country): starting from a table holding no row for the key,
two upserts with differing modes leave exactly one row for that key,
bearing the second mode; the `AssetUserAccess` create-many endpoint
instead creates a fresh row on every call, so two calls with an identical
(user, country, area) key accumulate two rows (see the counterexample). -/
theorem c4_grant_upsert_idempotence (db : List ProcurementUserAccess)
    (n1 n2 uid : Nat) (c : Option Nat) (m1 m2 : Mode)
    (h : db.filter (procKey uid c) = []) :
    (procUpsert (procUpsert db n1 uid c m1) n2 uid c m2).filter (procKey uid c)
      = [⟨n1, uid, c, m2⟩] := by
  have hall : ∀ a ∈ db, ¬ procKey uid c a = true := List.filter_eq_nil_iff.mp h
  have hf1 : db.find? (procKey uid c) = none := List.find?_eq_none.mpr hall
  have hkey : procKey uid c ⟨n1, uid, c, m1⟩ = true := by simp [procKey]
  have hf2 : (db ++ [(⟨n1, uid, c, m1⟩ : ProcurementUserAccess)]).find? (procKey uid c)
      = some ⟨n1, uid, c, m1⟩ := by
    rw [List.find?_append, hf1]
    simp [List.find?, hkey]
  have step1 : procUpsert db n1 uid c m1 = db ++ [⟨n1, uid, c, m1⟩] := by
    simp only [procUpsert, hf1]
  rw [step1]
  simp only [procUpsert, hf2]
  rw [List.map_append, List.filter_append]
  have h1 : ((db.map (fun b => if b.id = (⟨n1, uid, c, m1⟩ : ProcurementUserAccess).id
      then { b with mode := m2 } else b)).filter (procKey uid c)) = [] := by
    rw [List.filter_map]
    have hcong : db.filter ((procKey uid c) ∘ (fun b =>
        if b.id = (⟨n1, uid, c, m1⟩ : ProcurementUserAccess).id
        then { b with mode := m2 } else b)) = db.filter (procKey uid c) := by
      refine List.filter_congr ?_
      intro b _
      by_cases hb : b.id = n1 <;> simp [Function.comp, hb, procKey]
    rw [hcong, h, List.map_nil]
  rw [h1]
  simp [procKey]

/-- Closed instance of `c4_grant_upsert_idempotence`. -/
theorem c4_grant_upsert_idempotence_witness :
    ([] : List ProcurementUserAccess).filter (procKey 5 (some 1)) = []
    ∧ (procUpsert (procUpsert [] 1 5 (some 1) Mode.OFFICER) 2 5 (some 1) Mode.MANAGER).filter
        (procKey 5 (some 1)) = [⟨1, 5, some 1, Mode.MANAGER⟩] :=
  ⟨rfl, c4_grant_upsert_idempotence [] 1 2 5 (some 1) Mode.OFFICER Mode.MANAGER rfl⟩

/-- C5, counterexample: with the plan under finance validation, a user
holding two geographically matching grants — an OFFICER grant enumerated
first and a DISPOSAL_VALIDATOR grant second — is denied, although a
matching validator grant exists; swapping the enumeration order flips the
decision, so the outcome does depend on grant order. -/
theorem c5_counterexample :
    dpScopeWorkflowTransitionCheck (some ⟨7, []⟩)
      [⟨1, 7, none, none, Mode.OFFICER⟩, ⟨2, 7, none, none, Mode.DISPOSAL_VALIDATOR⟩]
      ⟨1, DisposalPlanState.UNDER_FINANCE_VALIDATION, some 1, none⟩
      ⟨DisposalPlanTransitionName.VALIDATE, DisposalPlanState.UNDER_FINANCE_VALIDATION⟩ = false
    ∧ (get_accesses_for_country_and_area 7
        [⟨1, 7, none, none, Mode.OFFICER⟩, ⟨2, 7, none, none, Mode.DISPOSAL_VALIDATOR⟩]
        (some 1) none).any (fun g => decide (g.mode = Mode.DISPOSAL_VALIDATOR)) = true
    ∧ dpScopeWorkflowTransitionCheck (some ⟨7, []⟩)
        [⟨2, 7, none, none, Mode.DISPOSAL_VALIDATOR⟩, ⟨1, 7, none, none, Mode.OFFICER⟩]
        ⟨1, DisposalPlanState.UNDER_FINANCE_VALIDATION, some 1, none⟩
        ⟨DisposalPlanTransitionName.VALIDATE, DisposalPlanState.UNDER_FINANCE_VALIDATION⟩ = true := by
  decide

/-- C5, amended: for a user without the all-transitions permission, a
transition out of UNDER_FINANCE_VALIDATION is allowed exactly when the
FIRST of the user's grants matching the plan's country/area (in
enumeration order, NULL-scoped grants matching any value) has mode
DISPOSAL_VALIDATOR — not when any such grant does. -/
theorem c5_finance_validation_transition (u : User) (accesses : List AssetUserAccess)
    (dp : DisposalPlan) (t : Transition)
    (hperm : u.has_perm Perm.change_disposal_plan_all_transitions = false)
    (hsrc : t.source_state = DisposalPlanState.UNDER_FINANCE_VALIDATION) :
    dpScopeWorkflowTransitionCheck (some u) accesses dp t = true ↔
      (get_accesses_for_country_and_area u.id accesses dp.country_mission dp.acted_area).head?.map
        (fun g => g.mode) = some Mode.DISPOSAL_VALIDATOR := by
  have hmain : dpScopeWorkflowTransitionCheck (some u) accesses dp t
      = dpCheckAccesses t
          (get_accesses_for_country_and_area u.id accesses dp.country_mission dp.acted_area) := by
    simp [dpScopeWorkflowTransitionCheck, hperm, hsrc]
  rw [hmain]
  cases hl : get_accesses_for_country_and_area u.id accesses dp.country_mission dp.acted_area with
  | nil => simp [dpCheckAccesses]
  | cons g rest => simp [dpCheckAccesses, hsrc]

/-- Closed instance of `c5_finance_validation_transition`. -/
theorem c5_finance_validation_transition_witness :
    dpScopeWorkflowTransitionCheck (some ⟨7, []⟩)
      [⟨2, 7, none, none, Mode.DISPOSAL_VALIDATOR⟩]
      ⟨1, DisposalPlanState.UNDER_FINANCE_VALIDATION, some 1, none⟩
      ⟨DisposalPlanTransitionName.VALIDATE, DisposalPlanState.UNDER_FINANCE_VALIDATION⟩ = true :=
  (c5_finance_validation_transition ⟨7, []⟩ [⟨2, 7, none, none, Mode.DISPOSAL_VALIDATOR⟩]
    ⟨1, DisposalPlanState.UNDER_FINANCE_VALIDATION, some 1, none⟩
    ⟨DisposalPlanTransitionName.VALIDATE, DisposalPlanState.UNDER_FINANCE_VALIDATION⟩
    (by decide) rfl).mpr (by decide)

/-- C6, counterexample: a user holding the blanket `delete_asset_all`
permission and zero grants has an asset in state IN_USE inside the DELETE
scope, so the claimed necessary condition (IN_STOCK plus a matching
MANAGER/CONTROLLER grant) does not hold for every user. -/
theorem c6_counterexample :
    assetQsMem (some ⟨0, [Perm.delete_asset, Perm.delete_asset_all]⟩) []
      AccessPolicyAction.DELETE ⟨1, AssetState.IN_USE, some 1, none⟩ = true
    ∧ (⟨1, AssetState.IN_USE, some 1, none⟩ : Asset).state ≠ AssetState.IN_STOCK := by
  decide

/-- C6, amended: for users lacking `delete_asset_all`, an Asset in the
DELETE scope is necessarily IN_STOCK and covered by a geographically
matching grant of mode MANAGER or CONTROLLER held by the user; moreover a
grant of mode INVENTORY_VALIDATOR or DISPOSAL_VALIDATOR contributes an
unsatisfiable clause for EDIT and DELETE, hence never contributes any
asset to those scopes. -/
theorem c6_asset_delete_gating (u : User) (accesses : List AssetUserAccess) (a : Asset)
    (g : AssetUserAccess) (act : AccessPolicyAction) (b : Asset)
    (hall : u.has_perm Perm.delete_asset_all = false)
    (hmem : assetQsMem (some u) accesses AccessPolicyAction.DELETE a = true)
    (hact : act = AccessPolicyAction.EDIT ∨ act = AccessPolicyAction.DELETE)
    (hgv : g.mode = Mode.INVENTORY_VALIDATOR ∨ g.mode = Mode.DISPOSAL_VALIDATOR) :
    (a.state = AssetState.IN_STOCK
      ∧ ∃ g2 ∈ accesses, g2.userId = u.id
          ∧ (g2.mode = Mode.MANAGER ∨ g2.mode = Mode.CONTROLLER)
          ∧ areaMatchTerm g2.acted_area a.acted_area = true
          ∧ countryMatchTerm g2.country a.country_mission = true)
    ∧ assetAccessClause act g b = false := by
  constructor
  · cases hgate : assetBasePermOk u AccessPolicyAction.DELETE
    · simp [assetQsMem, hgate] at hmem
    · simp only [assetQsMem, hgate, hall] at hmem
      simp only [Bool.not_true, Bool.false_eq_true, if_false, reduceCtorEq, decide_False,
        Bool.false_and, Bool.and_false, decide_True, Bool.true_and] at hmem
      rw [List.any_eq_true] at hmem
      obtain ⟨g2, hg2mem, hcl⟩ := hmem
      rw [List.mem_filter] at hg2mem
      obtain ⟨hg2acc, hg2id⟩ := hg2mem
      simp only [decide_eq_true_eq] at hg2id
      simp only [assetAccessClause, Bool.and_eq_true] at hcl
      have h1 := hcl.1.1.1
      have h3 := hcl.1.2
      have h4 := hcl.2
      by_cases hm : g2.mode = Mode.MANAGER ∨ g2.mode = Mode.CONTROLLER
      · simp only [hm, if_true, iff_true, if_pos, decide_eq_true_eq] at h1
        exact ⟨h1, g2, hg2acc, hg2id, hm, h3, h4⟩
      · simp [hm] at h1
  · rcases hgv with hg | hg <;> rcases hact with ha | ha <;> subst ha <;>
      simp [assetAccessClause, hg]

/-- Closed instance of `c6_asset_delete_gating`. -/
theorem c6_asset_delete_gating_witness :
    ((⟨1, AssetState.IN_STOCK, some 1, none⟩ : Asset).state = AssetState.IN_STOCK
      ∧ ∃ g2 ∈ [(⟨1, 0, some 1, none, Mode.MANAGER⟩ : AssetUserAccess)], g2.userId = 0
          ∧ (g2.mode = Mode.MANAGER ∨ g2.mode = Mode.CONTROLLER)
          ∧ areaMatchTerm g2.acted_area none = true
          ∧ countryMatchTerm g2.country (some 1) = true)
    ∧ assetAccessClause AccessPolicyAction.EDIT ⟨3, 0, none, none, Mode.INVENTORY_VALIDATOR⟩
        ⟨1, AssetState.IN_STOCK, some 1, none⟩ = false :=
  c6_asset_delete_gating ⟨0, [Perm.delete_asset]⟩ [⟨1, 0, some 1, none, Mode.MANAGER⟩]
    ⟨1, AssetState.IN_STOCK, some 1, none⟩ ⟨3, 0, none, none, Mode.INVENTORY_VALIDATOR⟩
    AccessPolicyAction.EDIT ⟨1, AssetState.IN_STOCK, some 1, none⟩
    (by decide) (by decide) (Or.inl rfl) (Or.inl rfl)

/-- C7: for EDIT and DELETE the Inventory scope never contains an
Inventory in state VALIDATED, for any user — including holders of the
blanket `change_inventory_all` / `delete_inventory_all` permissions —
and an OFFICER-mode grant contributes an Inventory to the EDIT/DELETE
scope only while it is ON_GOING. -/
theorem c7_validated_inventory_lock (u : User) (accesses : List AssetUserAccess)
    (act : AccessPolicyAction) (inv : Inventory) (g : AssetUserAccess)
    (act2 : AccessPolicyAction) (inv2 : Inventory)
    (hact : act = AccessPolicyAction.EDIT ∨ act = AccessPolicyAction.DELETE)
    (hact2 : act2 = AccessPolicyAction.EDIT ∨ act2 = AccessPolicyAction.DELETE)
    (hmem : inventoryQsMem (some u) accesses act inv = true)
    (hg : g.mode = Mode.OFFICER)
    (hcl : inventoryAccessClause act2 g inv2 = true) :
    inv.state ≠ InventoryState.VALIDATED ∧ inv2.state = InventoryState.ON_GOING := by
  constructor
  · intro hv
    rcases hact with h | h <;> subst h <;> simp [inventoryQsMem, hv] at hmem
  · simp only [inventoryAccessClause, Bool.and_eq_true] at hcl
    have h1 := hcl.1.1
    rcases hact2 with h | h <;> subst h <;> simpa [hg] using h1

/-- Closed instance of `c7_validated_inventory_lock`. -/
theorem c7_validated_inventory_lock_witness :
    (⟨1, InventoryState.ON_GOING, some 1, none⟩ : Inventory).state ≠ InventoryState.VALIDATED
    ∧ (⟨2, InventoryState.ON_GOING, some 1, none⟩ : Inventory).state = InventoryState.ON_GOING :=
  c7_validated_inventory_lock ⟨0, [Perm.change_inventory, Perm.change_inventory_all]⟩ []
    AccessPolicyAction.EDIT ⟨1, InventoryState.ON_GOING, some 1, none⟩
    ⟨1, 0, none, none, Mode.OFFICER⟩ AccessPolicyAction.EDIT
    ⟨2, InventoryState.ON_GOING, some 1, none⟩
    (Or.inl rfl) (Or.inl rfl) (by decide) rfl (by decide)

/-- C8: a user holding `change_asset_purchase_number` but neither
`change_asset` nor `change_asset_all` has every asset in the EDIT scope,
and `set_readonly_fields` on a single instance marks every field
read-only except exactly `purchase_number` (names preserved, the
`purchase_number` entry untouched); for a user holding `change_asset` or
`change_asset_all` the fields are returned untouched. -/
theorem c8_purchase_number_narrow_permission (u u2 : User)
    (accesses : List AssetUserAccess) (b a a2 : Asset)
    (fields fields2 : List (String × Bool))
    (h1 : u.has_perm Perm.change_asset_purchase_number = true)
    (h2 : u.has_perm Perm.change_asset = false)
    (h3 : u.has_perm Perm.change_asset_all = false)
    (h4 : u2.has_perm Perm.change_asset = true ∨ u2.has_perm Perm.change_asset_all = true) :
    assetQsMem (some u) accesses AccessPolicyAction.EDIT b = true
    ∧ (set_readonly_fields (some a) fields (some u)).all
        (fun f => decide (f.1 = "purchase_number") || f.2) = true
    ∧ (set_readonly_fields (some a) fields (some u)).filter
        (fun f => decide (f.1 = "purchase_number"))
      = fields.filter (fun f => decide (f.1 = "purchase_number"))
    ∧ (set_readonly_fields (some a) fields (some u)).map Prod.fst = fields.map Prod.fst
    ∧ set_readonly_fields (some a2) fields2 (some u2) = fields2 := by
  have hsrf : set_readonly_fields (some a) fields (some u)
      = fields.map (fun f => if f.1 = "purchase_number" then f else (f.1, true)) := by
    simp [set_readonly_fields, h1, h2, h3]
  refine ⟨?_, ?_, ?_, ?_, ?_⟩
  · simp [assetQsMem, assetBasePermOk, h1, h3]
  · rw [hsrf, List.all_map, List.all_eq_true]
    intro f _
    by_cases hpn : f.1 = "purchase_number" <;> simp [Function.comp, hpn]
  · rw [hsrf, List.filter_map]
    have hcong : fields.filter ((fun f => decide (f.1 = "purchase_number"))
        ∘ (fun f => if f.1 = "purchase_number" then f else (f.1, true)))
        = fields.filter (fun f => decide (f.1 = "purchase_number")) := by
      refine List.filter_congr ?_
      intro f _
      by_cases hpn : f.1 = "purchase_number" <;> simp [Function.comp, hpn]
    rw [hcong]
    have hmapid : (fields.filter (fun f => decide (f.1 = "purchase_number"))).map
        (fun f => if f.1 = "purchase_number" then f else (f.1, true))
        = (fields.filter (fun f => decide (f.1 = "purchase_number"))).map id := by
      refine List.map_congr_left ?_
      intro f hf
      rw [List.mem_filter] at hf
      simp only [decide_eq_true_eq] at hf
      simp [hf.2]
    rw [hmapid, List.map_id]
  · rw [hsrf, List.map_map]
    refine List.map_congr_left ?_
    intro f _
    by_cases hpn : f.1 = "purchase_number" <;> simp [Function.comp, hpn]
  · rcases h4 with h | h <;> simp [set_readonly_fields, h]

/-- Closed instance of `c8_purchase_number_narrow_permission`. -/
theorem c8_purchase_number_narrow_permission_witness :
    assetQsMem (some ⟨0, [Perm.change_asset_purchase_number]⟩) []
      AccessPolicyAction.EDIT ⟨1, AssetState.IN_USE, some 1, none⟩ = true
    ∧ (set_readonly_fields (some ⟨1, AssetState.IN_USE, some 1, none⟩)
        [("purchase_number", false), ("name", false)]
        (some ⟨0, [Perm.change_asset_purchase_number]⟩)).all
        (fun f => decide (f.1 = "purchase_number") || f.2) = true
    ∧ (set_readonly_fields (some ⟨1, AssetState.IN_USE, some 1, none⟩)
        [("purchase_number", false), ("name", false)]
        (some ⟨0, [Perm.change_asset_purchase_number]⟩)).filter
        (fun f => decide (f.1 = "purchase_number"))
      = [("purchase_number", false), ("name", false)].filter
          (fun f => decide (f.1 = "purchase_number"))
    ∧ (set_readonly_fields (some ⟨1, AssetState.IN_USE, some 1, none⟩)
        [("purchase_number", false), ("name", false)]
        (some ⟨0, [Perm.change_asset_purchase_number]⟩)).map Prod.fst
      = [("purchase_number", false), ("name", false)].map Prod.fst
    ∧ set_readonly_fields (some ⟨2, AssetState.IN_STOCK, some 1, none⟩)
        [("purchase_number", false)] (some ⟨1, [Perm.change_asset]⟩)
      = [("purchase_number", false)] :=
  c8_purchase_number_narrow_permission ⟨0, [Perm.change_asset_purchase_number]⟩
    ⟨1, [Perm.change_asset]⟩ [] ⟨1, AssetState.IN_USE, some 1, none⟩
    ⟨1, AssetState.IN_USE, some 1, none⟩ ⟨2, AssetState.IN_STOCK, some 1, none⟩
    [("purchase_number", false), ("name", false)] [("purchase_number", false)]
    (by decide) (by decide) (by decide) (Or.inl (by decide))

/-- From a satisfied grant disjunction of an all-OFFICER user for EDIT or
DELETE on an allocation, the ownership term of the clause follows. -/
theorem aapcOfficerOwnershipOfAny (u : User) (accesses : List AssetUserAccess)
    (act : AccessPolicyAction) (r : AssetAllocationProjectContract)
    (hofficer : accesses.all
      (fun g => !(decide (g.userId = u.id)) || decide (g.mode = Mode.OFFICER)) = true)
    (hact : act = AccessPolicyAction.EDIT ∨ act = AccessPolicyAction.DELETE)
    (hany : (accesses.filter (fun g => decide (g.userId = u.id))).any
      (fun g => aapcAccessClause u.id act g r) = true) :
    r.created_by = u.id := by
  rw [List.any_eq_true] at hany
  obtain ⟨g2, hg2mem, hcl⟩ := hany
  rw [List.mem_filter] at hg2mem
  obtain ⟨hg2acc, hg2id⟩ := hg2mem
  simp only [decide_eq_true_eq] at hg2id
  have hg2mode : g2.mode = Mode.OFFICER := by
    have := List.all_eq_true.mp hofficer g2 hg2acc
    simpa [hg2id] using this
  simp only [aapcAccessClause, Bool.and_eq_true] at hcl
  have h1 := hcl.1.1
  rcases hact with h | h <;> subst h <;> simpa [hg2mode] using h1

/-- C9: for a user whose grants are all OFFICER-mode and who lacks the
blanket change/delete `-all` permissions, an allocation in the EDIT or
DELETE scope was necessarily created by that user; and for any user the
READ scope does not depend on the record's creator. -/
theorem c9_officer_ownership_allocations (u : User) (accesses : List AssetUserAccess)
    (act : AccessPolicyAction) (r : AssetAllocationProjectContract)
    (u2 : User) (accesses2 : List AssetUserAccess) (i cb1 cb2 : Nat) (c ar : Option Nat)
    (hofficer : accesses.all
      (fun g => !(decide (g.userId = u.id)) || decide (g.mode = Mode.OFFICER)) = true)
    (hc : u.has_perm Perm.change_assetallocationprojectcontract_all = false)
    (hd : u.has_perm Perm.delete_assetallocationprojectcontract_all = false)
    (hact : act = AccessPolicyAction.EDIT ∨ act = AccessPolicyAction.DELETE)
    (hmem : aapcQsMem (some u) accesses act r = true) :
    r.created_by = u.id
    ∧ aapcQsMem (some u2) accesses2 AccessPolicyAction.READ ⟨i, cb1, c, ar⟩
      = aapcQsMem (some u2) accesses2 AccessPolicyAction.READ ⟨i, cb2, c, ar⟩ := by
  constructor
  · rcases hact with h | h <;> subst h
    · cases hgate : aapcBasePermOk u AccessPolicyAction.EDIT
      · simp [aapcQsMem, hgate] at hmem
      · refine aapcOfficerOwnershipOfAny u accesses _ r hofficer (Or.inl rfl) ?_
        simp only [aapcQsMem, hgate, hc] at hmem
        simpa only [Bool.not_true, Bool.false_eq_true, if_false, reduceCtorEq, decide_False,
          Bool.false_and, Bool.and_false, decide_True, Bool.true_and] using hmem
    · cases hgate : aapcBasePermOk u AccessPolicyAction.DELETE
      · simp [aapcQsMem, hgate] at hmem
      · refine aapcOfficerOwnershipOfAny u accesses _ r hofficer (Or.inr rfl) ?_
        simp only [aapcQsMem, hgate, hd] at hmem
        simpa only [Bool.not_true, Bool.false_eq_true, if_false, reduceCtorEq, decide_False,
          Bool.false_and, Bool.and_false, decide_True, Bool.true_and] using hmem
  · have hclause : (fun g => aapcAccessClause u2.id AccessPolicyAction.READ g ⟨i, cb1, c, ar⟩)
        = (fun g => aapcAccessClause u2.id AccessPolicyAction.READ g ⟨i, cb2, c, ar⟩) := by
      funext g
      simp [aapcAccessClause]
    simp only [aapcQsMem]
    rw [hclause]

/-- Closed instance of `c9_officer_ownership_allocations`. -/
theorem c9_officer_ownership_allocations_witness :
    (⟨5, 0, some 1, none⟩ : AssetAllocationProjectContract).created_by = 0
    ∧ aapcQsMem (some ⟨3, []⟩) [] AccessPolicyAction.READ ⟨9, 4, some 2, none⟩
      = aapcQsMem (some ⟨3, []⟩) [] AccessPolicyAction.READ ⟨9, 8, some 2, none⟩ :=
  c9_officer_ownership_allocations ⟨0, [Perm.change_assetallocationprojectcontract]⟩
    [⟨1, 0, some 1, none, Mode.OFFICER⟩] AccessPolicyAction.EDIT ⟨5, 0, some 1, none⟩
    ⟨3, []⟩ [] 9 4 8 (some 2) none
    (by decide) (by decide) (by decide) (Or.inl rfl) (by decide)

/-- The `mode__in` list built by the `AssetUserAccess` self-scoping never
contains CONTROLLER, for any action and any viewer grant. -/
theorem controllerNeverVisible (act : AccessPolicyAction) (g : AssetUserAccess) :
    decide (Mode.CONTROLLER ∈ auaVisibleModes act g) = false := by
  rcases g with ⟨gid, guid, gc, ga, gm⟩
  cases gm <;> cases act <;> rfl

/-- C10: for a user lacking the blanket view (on READ) and delete (on
DELETE) permissions, the `AssetUserAccess` scope never contains a
CONTROLLER-mode grant row; the visible-mode list of any viewer grant
excludes CONTROLLER; a CONTROLLER/MANAGER viewer grant sees exactly every
mode other than CONTROLLER; any other grant sees only its own mode,
except that an OFFICER grant on READ sees OFFICER and
INVENTORY_VALIDATOR. -/
theorem c10_controller_grants_invisible (u : User) (accesses : List AssetUserAccess)
    (act : AccessPolicyAction) (row : AssetUserAccess) (g1 g2 g3 g4 : AssetUserAccess)
    (act1 act2 act3 : AccessPolicyAction) (m : Mode)
    (hvr : act = AccessPolicyAction.READ → u.has_perm Perm.view_assetuseraccess_all = false)
    (hvd : act = AccessPolicyAction.DELETE → u.has_perm Perm.delete_assetuseraccess_all = false)
    (hact : act = AccessPolicyAction.READ ∨ act = AccessPolicyAction.DELETE)
    (hmem : auaQsMem (some u) accesses act row = true)
    (hg2 : g2.mode = Mode.CONTROLLER ∨ g2.mode = Mode.MANAGER)
    (hg3a : g3.mode ≠ Mode.CONTROLLER) (hg3b : g3.mode ≠ Mode.MANAGER)
    (hg3c : ¬(act3 = AccessPolicyAction.READ ∧ g3.mode = Mode.OFFICER))
    (hg4 : g4.mode = Mode.OFFICER) :
    row.mode ≠ Mode.CONTROLLER
    ∧ decide (Mode.CONTROLLER ∈ auaVisibleModes act1 g1) = false
    ∧ decide (m ∈ auaVisibleModes act2 g2) = decide (m ≠ Mode.CONTROLLER)
    ∧ auaVisibleModes act3 g3 = [g3.mode]
    ∧ auaVisibleModes AccessPolicyAction.READ g4 = [Mode.OFFICER, Mode.INVENTORY_VALIDATOR] := by
  refine ⟨?_, controllerNeverVisible act1 g1, ?_, ?_, ?_⟩
  · have hany : (accesses.filter (fun g => decide (g.userId = u.id))).any
        (fun g => auaClause act g row) = true := by
      rcases hact with h | h <;> subst h
      · simpa [auaQsMem, hvr rfl] using hmem
      · simpa [auaQsMem, hvd rfl] using hmem
    rw [List.any_eq_true] at hany
    obtain ⟨g0, _, hcl⟩ := hany
    simp only [auaClause, Bool.and_eq_true] at hcl
    have h3 := hcl.2
    intro hrow
    rw [hrow, controllerNeverVisible] at h3
    exact absurd h3 (by simp)
  · rcases hg2 with h | h <;> cases m <;> simp [auaVisibleModes, h, Mode.all]
  · by_cases hr : act3 = AccessPolicyAction.READ
    · have hmo : g3.mode ≠ Mode.OFFICER := fun hmo => hg3c ⟨hr, hmo⟩
      simp [auaVisibleModes, hr, hmo, hg3a, hg3b]
    · simp [auaVisibleModes, hr, hg3a, hg3b]
  · simp [auaVisibleModes, hg4]

/-- Closed instance of `c10_controller_grants_invisible`. -/
theorem c10_controller_grants_invisible_witness :
    (⟨2, 3, none, none, Mode.OFFICER⟩ : AssetUserAccess).mode ≠ Mode.CONTROLLER
    ∧ decide (Mode.CONTROLLER ∈ auaVisibleModes AccessPolicyAction.READ
        ⟨1, 9, none, none, Mode.CONTROLLER⟩) = false
    ∧ decide (Mode.OFFICER ∈ auaVisibleModes AccessPolicyAction.READ
        ⟨1, 9, none, none, Mode.MANAGER⟩) = decide (Mode.OFFICER ≠ Mode.CONTROLLER)
    ∧ auaVisibleModes AccessPolicyAction.DELETE ⟨1, 9, none, none, Mode.DISPOSAL_VALIDATOR⟩
      = [Mode.DISPOSAL_VALIDATOR]
    ∧ auaVisibleModes AccessPolicyAction.READ ⟨1, 9, none, none, Mode.OFFICER⟩
      = [Mode.OFFICER, Mode.INVENTORY_VALIDATOR] :=
  c10_controller_grants_invisible ⟨9, []⟩ [⟨1, 9, none, none, Mode.MANAGER⟩]
    AccessPolicyAction.READ ⟨2, 3, none, none, Mode.OFFICER⟩
    ⟨1, 9, none, none, Mode.CONTROLLER⟩ ⟨1, 9, none, none, Mode.MANAGER⟩
    ⟨1, 9, none, none, Mode.DISPOSAL_VALIDATOR⟩ ⟨1, 9, none, none, Mode.OFFICER⟩
    AccessPolicyAction.READ AccessPolicyAction.READ AccessPolicyAction.DELETE Mode.OFFICER
    (by decide) (by decide) (Or.inl rfl) (by decide)
    (Or.inr rfl) (by decide) (by decide) (by decide) rfl

end AssetPolicy
